import Mathlib

/-
Shallow embedding of the RCN DAS format reference implementation
(DAS_Format_reference.py, miniDAS/format.py, miniDAS/reader.py,
basicASNreader.py) and proofs about the claims on its specification.

Conventions of the embedding:
* numpy floating point scalars and Python floats are modelled as exact
  rationals (ℚ); machine integers as ℤ/ℕ;
* the HDF5 backing store is modelled per the spec as a hierarchical
  key/value store: groups are association lists in insertion order,
  datasets hold primitive leaf values;
* Python exceptions are modelled with `Except`; an exception carries a
  structured payload (e.g. the offending key) instead of the formatted
  message string.
-/

namespace DASRCN

/-- Leaf values that `fid.create_dataset` can persist: a numeric scalar,
a string, or a numeric (numpy) array. -/
inductive LeafVal where
  | scalar : ℚ → LeafVal
  | text : String → LeafVal
  | nparr : List ℚ → LeafVal
deriving DecidableEq

/-- Python values that can appear in the free-form `meta` dictionary
passed to `writeDAS`: scalars, strings, numpy arrays, Python lists
(rejected by the writer), and nested dictionaries (insertion ordered). -/
inductive PyVal where
  | scalar : ℚ → PyVal
  | text : String → PyVal
  | nparr : List ℚ → PyVal
  | pylist : List PyVal → PyVal
  | dict : List (String × PyVal) → PyVal

/-- A node of the HDF5 hierarchy: a group with named children (in
creation order) or a dataset holding a leaf value. -/
inductive H5Node where
  | dataset : LeafVal → H5Node
  | group : List (String × H5Node) → H5Node

mutual
/-- Embeds `_walkingDictStoring(trunk, group, dataset)` from
DAS_Format_reference.py (the closure over the open HDF5 file `fid`).
The first component is the HDF5 node created below the given key
(`none` when the value was a Python list, for which the code raises
before creating anything); the second component is `some key` when a
`TypeError` was raised, carrying the offending full path that the
source interpolates into the message
`Type 'LIST' for field ... is not supported in HDF5 format`.
Entries created before the exception remain in the store. -/
def walkingDictStoring : String → PyVal → Option H5Node × Option String
  | _, PyVal.scalar q => (some (H5Node.dataset (LeafVal.scalar q)), none)
  | _, PyVal.text s => (some (H5Node.dataset (LeafVal.text s)), none)
  | _, PyVal.nparr l => (some (H5Node.dataset (LeafVal.nparr l)), none)
  | key, PyVal.pylist _ => (none, some key)
  | key, PyVal.dict entries =>
      let r := walkEntries key entries
      (some (H5Node.group r.1), r.2)

/-- The `for grp in dataset.keys()` loop of `_walkingDictStoring`:
children are stored one after the other; the first exception aborts the
loop, keeping everything stored so far (including a partially stored
child group). -/
def walkEntries : String → List (String × PyVal) → List (String × H5Node) × Option String
  | _, [] => ([], none)
  | key, (k, v) :: rest =>
      match walkingDictStoring (key ++ "/" ++ k) v with
      | (some h, none) =>
          let r := walkEntries key rest
          ((k, h) :: r.1, r.2)
      | (some h, some e) => ([(k, h)], some e)
      | (none, e) => ([], e)
end

mutual
/-- Embeds `_readDictInH5(trunk, group, dataset)` (with `show=False`):
a group is walked recursively into a dictionary, a dataset yields its
stored value. -/
def readDictInH5 : H5Node → PyVal
  | H5Node.dataset (LeafVal.scalar q) => PyVal.scalar q
  | H5Node.dataset (LeafVal.text s) => PyVal.text s
  | H5Node.dataset (LeafVal.nparr l) => PyVal.nparr l
  | H5Node.group entries => PyVal.dict (readEntries entries)

/-- The `for grp in dataset.keys()` loop of `_readDictInH5`. -/
def readEntries : List (String × H5Node) → List (String × PyVal)
  | [] => []
  | (k, h) :: rest => (k, readDictInH5 h) :: readEntries rest
end

mutual
/-- True when a metadata value contains no Python list at any depth
(the value kinds the writer supports). -/
def listFree : PyVal → Bool
  | PyVal.scalar _ => true
  | PyVal.text _ => true
  | PyVal.nparr _ => true
  | PyVal.pylist _ => false
  | PyVal.dict entries => listFreeEntries entries

/-- `listFree` over the entries of a dictionary. -/
def listFreeEntries : List (String × PyVal) → Bool
  | [] => true
  | (_, v) :: rest => listFree v && listFreeEntries rest
end

mutual
/-- Full paths (joined with `/` below the given root key, as the walker
builds them) of every Python-list leaf in a metadata value. -/
def listLeafKeys : String → PyVal → List String
  | key, PyVal.pylist _ => [key]
  | key, PyVal.dict es => listLeafKeysEntries key es
  | _, _ => []

/-- `listLeafKeys` over the entries of a dictionary. -/
def listLeafKeysEntries : String → List (String × PyVal) → List String
  | _, [] => []
  | key, (k, v) :: rest =>
      listLeafKeys (key ++ "/" ++ k) v ++ listLeafKeysEntries key rest
end

/-- Numpy dtype tags relevant to the format (the allow list plus a few
others a producer could pass in). -/
inductive DType where
  | int16 | int32 | float32 | float64 | uint64
deriving DecidableEq

/-- A 2-D numpy array: a dtype tag and the row-major values.
`shape[0]` is the number of rows, `shape[1]` the (common) row length. -/
structure NpMatrix where
  dtype : DType
  vals : List (List ℚ)
deriving DecidableEq

/-- Shape component 0 of a 2-D numpy array. -/
def NpMatrix.shape0 (m : NpMatrix) : ℕ := m.vals.length

/-- Shape component 1 of a 2-D numpy array (rows of a rectangular
array all have this length). -/
def NpMatrix.shape1 (m : NpMatrix) : ℕ := (m.vals.headD []).length

/-- Module level constant `version = 0.92` of DAS_Format_reference.py. -/
def refVersion : ℚ := 92 / 100

/-- Python `str.upper()` for the ASCII strings the format uses:
uppercasing each character of the string. -/
def pyUpper (s : String) : String := ⟨s.data.map Char.toUpper⟩

/-- The in-memory `das` dictionary of DAS_Format_reference.py, with the
keys `readDAS` produces and `writeDAS`/`compareDASdicts`/
`checkDASFileFormat` consume. -/
structure RefDas where
  DASFileVersion : ℚ
  domain : String
  t0 : ℚ
  fsamp : ℚ
  gl : ℚ
  lats : List ℚ
  longs : List ℚ
  elev : List ℚ
  traces : NpMatrix
  meta : PyVal

/-- Contents of a `.das` HDF5 file as laid out by
`writeDAS` of DAS_Format_reference.py: the `traces` dataset, the flat
top-level attributes, and the `meta` hierarchy (`none` when `meta` was
a Python list, for which the walker raises before creating the node). -/
structure DASFile where
  traces : NpMatrix
  DASFileVersion : ℚ
  domain : String
  t0 : ℚ
  fsamp : ℚ
  gl : ℚ
  lats : List ℚ
  longs : List ℚ
  elev : List ℚ
  meta : Option H5Node

/-- The file contents `writeDAS fname ...` leaves at `fname`: traces
and attributes are stored first, then the `meta` dictionary is walked;
when the walk raises, everything stored up to that point remains in the
(now closed) file. The stored `DASFileVersion` is the module constant,
not a caller-supplied value. -/
def writeDASContent (das : RefDas) : DASFile :=
  { traces := das.traces
    DASFileVersion := refVersion
    domain := das.domain
    t0 := das.t0
    fsamp := das.fsamp
    gl := das.gl
    lats := das.lats
    longs := das.longs
    elev := das.elev
    meta := (walkingDictStoring "meta" das.meta).1 }

/-- The exception outcome of the meta walk inside `writeDAS`: `some key`
models the `TypeError` naming the offending full path. -/
def writeDASResult (das : RefDas) : Option String :=
  (walkingDictStoring "meta" das.meta).2

/-- A directory of files: an association list from filename to file
contents, most recent write first. -/
def FileSys (α : Type) : Type := List (String × α)

/-- Lookup of a filename in the directory. -/
def fsLookup {α : Type} (name : String) : FileSys α → Option α
  | [] => none
  | (k, v) :: rest => if k = name then some v else fsLookup name rest

/-- Creating/truncating a file (the effect of `h5py.File(name, "w")`
followed by writing): any previous contents at that name are replaced. -/
def fsWrite {α : Type} (name : String) (v : α) (fs : FileSys α) : FileSys α :=
  (name, v) :: fs

/-- Whether a file of this name exists (`Path.exists`). -/
def fsMember {α : Type} (name : String) (fs : FileSys α) : Bool :=
  (fsLookup name fs).isSome

/-- Embeds `writeDAS(fname, traces, domain, t0, fsamp, GL, lats, longs,
elev, meta)` acting on a directory: `h5py.File(fname, "w")` creates or
truncates the destination unconditionally (there is no overwrite
guard), the flat fields and traces are stored, then the meta walk runs;
a `TypeError` from the walk propagates to the caller but the partially
written file remains at the destination. The branch that invents a
filename from `t0` when `fname` is empty (strftime formatting) is not
modelled; all claims use an explicit destination. -/
def writeDAS (fs : FileSys DASFile) (fname : String) (das : RefDas) :
    Except String Unit × FileSys DASFile :=
  match writeDASResult das with
  | none => (Except.ok (), fsWrite fname (writeDASContent das) fs)
  | some e => (Except.error e, fsWrite fname (writeDASContent das) fs)

/-- Failure modes of `readDAS` of DAS_Format_reference.py.
`unsupportedVersion` models the `print('Unknown DAS file version
number!')` followed by `exit()` (a `SystemExit` propagating to the
caller, with no further field read); `missingMeta` models the
`KeyError` of `fid['meta']` on a file without a meta group. -/
inductive RefReadErr where
  | unsupportedVersion
  | missingMeta
deriving DecidableEq

/-- Embeds `readDAS(fname)` of DAS_Format_reference.py on the contents
of an opened file: the version attribute is read and gated first;
only then are the traces, the remaining attributes and the meta
hierarchy read. -/
def readDAS (f : DASFile) : Except RefReadErr RefDas :=
  if f.DASFileVersion ≠ refVersion then
    Except.error RefReadErr.unsupportedVersion
  else
    match f.meta with
    | none => Except.error RefReadErr.missingMeta
    | some m =>
        Except.ok
          { DASFileVersion := f.DASFileVersion
            domain := f.domain
            t0 := f.t0
            fsamp := f.fsamp
            gl := f.gl
            lats := f.lats
            longs := f.longs
            elev := f.elev
            traces := f.traces
            meta := readDictInH5 m }

/-- The mismatch messages `compareDASdicts` can append, as structured
tags (the source appends fixed message strings). -/
inductive CmpMsg where
  | version | traces | domain | t0 | fsamp | longs | lats | elev
deriving DecidableEq

/-- Elementwise absolute differences `abs(das1['traces'] -
das2['traces'])` of two equally shaped matrices, flattened. -/
def absDiffs (a b : List (List ℚ)) : List ℚ :=
  (List.zipWith (fun r s => List.zipWith (fun x y => |x - y|) r s) a b).flatten

/-- `np.min` over a flattened array; the empty case is never reached by
numpy (it raises on an empty array) and callers of the comparator are
assumed to hold at least one sample. -/
def listMinD : List ℚ → ℚ
  | [] => 0
  | x :: xs => xs.foldl min x

/-- `np.max` over a flattened array, same convention as `listMinD`. -/
def listMaxD : List ℚ → ℚ
  | [] => 0
  | x :: xs => xs.foldl max x

/-- Embeds `compareDASdicts(das1, das2)`: every check runs and appends
its message independently; the returned flag is true exactly when no
message was appended. Two slips of the source are embedded verbatim:
the trace check tests `np.min(abs(das1['traces'] - das2['traces'])) >
0.000` (the minimum, not the maximum, of the absolute differences), and
the domain check compares `das1['domain']` with itself. -/
def compareDASdicts (das1 das2 : RefDas) : Bool × List CmpMsg :=
  let m1 := if das1.DASFileVersion ≠ das2.DASFileVersion then [CmpMsg.version] else []
  let m2 := if listMinD (absDiffs das1.traces.vals das2.traces.vals) > 0 then [CmpMsg.traces] else []
  let m3 := if pyUpper das1.domain ≠ pyUpper das1.domain then [CmpMsg.domain] else []
  let m4 := if das1.t0 ≠ das2.t0 then [CmpMsg.t0] else []
  let m5 := if das1.fsamp ≠ das2.fsamp then [CmpMsg.fsamp] else []
  let m6 := if das1.longs ≠ das2.longs then [CmpMsg.longs] else []
  let m7 := if das1.lats ≠ das2.lats then [CmpMsg.lats] else []
  let m8 := if das1.elev ≠ das2.elev then [CmpMsg.elev] else []
  let msgs := m1 ++ m2 ++ m3 ++ m4 ++ m5 ++ m6 ++ m7 ++ m8
  (msgs.isEmpty, msgs)

/-- The violation messages `checkDASFileFormat` can append, as
structured tags. -/
inductive ChkMsg where
  | version | latsLongs | latsElev | dtype | domain
deriving DecidableEq

/-- Embeds `checkDASFileFormat(das)`: all checks run and their
violations are collected; the flag is true exactly when none fired. -/
def checkDASFileFormat (das : RefDas) : Bool × List ChkMsg :=
  let m1 := if das.DASFileVersion ≠ refVersion then [ChkMsg.version] else []
  let m2 := if das.lats.length ≠ das.longs.length then [ChkMsg.latsLongs] else []
  let m3 := if das.lats.length ≠ das.elev.length then [ChkMsg.latsElev] else []
  let m4 := if das.traces.dtype ≠ DType.float32 then [ChkMsg.dtype] else []
  let m5 := if ¬ (pyUpper das.domain ∈ ["STRAIN", "STRAINRATE"]) then [ChkMsg.domain] else []
  let msgs := m1 ++ m2 ++ m3 ++ m4 ++ m5
  (msgs.isEmpty, msgs)

/-- The dtype allow-list `_ALLOWED_DTYPES = (np.int16, np.int32,
np.float32)` of miniDAS/format.py. -/
def allowedDtypes : List DType := [DType.int16, DType.int32, DType.float32]

/-- The `Meta` dataclass of miniDAS/format.py (all fields; the two
defaulted ones keep their defaults). -/
structure Meta where
  data_unit : String
  start_time_ns : ℤ
  sampling_rate : ℚ
  channel_spacing_m : ℚ
  gauge_length : ℚ
  strain_scale_factor : ℚ
  units_after_scaling : String
  latitudes : List ℚ
  longitudes : List ℚ
  elevations : List ℚ
  end_time_ns : ℤ := 0
  interrogator : String := ""
deriving DecidableEq

/-- Exceptions raised by miniDAS/format.py, as structured kinds:
`attributeError` for the shape mismatch of `Meta.__post_init__` and for
the `is not a miniDAS file` failure of `open`; `alreadyExists` for the
`OSError` of `from_numpy` on an existing destination; `invalidDtype`
for its `TypeError`; `shapeMismatch` for its channel-count
`AttributeError`. -/
inductive MDErr where
  | attributeError | alreadyExists | invalidDtype | shapeMismatch
deriving DecidableEq

/-- Embeds constructing `Meta(...)` including `__post_init__`: the
guard is the Python chained comparison `self.latitudes.size !=
self.longitudes.size != self.elevations.size`, which raises only when
latitudes differ from longitudes in size AND longitudes differ from
elevations in size. -/
def mkMeta (data_unit : String) (start_time_ns : ℤ)
    (sampling_rate channel_spacing_m gauge_length strain_scale_factor : ℚ)
    (units_after_scaling : String)
    (latitudes longitudes elevations : List ℚ) : Except MDErr Meta :=
  if latitudes.length ≠ longitudes.length ∧ longitudes.length ≠ elevations.length then
    Except.error MDErr.attributeError
  else
    Except.ok
      { data_unit := data_unit
        start_time_ns := start_time_ns
        sampling_rate := sampling_rate
        channel_spacing_m := channel_spacing_m
        gauge_length := gauge_length
        strain_scale_factor := strain_scale_factor
        units_after_scaling := units_after_scaling
        latitudes := latitudes
        longitudes := longitudes
        elevations := elevations }

/-- The in-memory miniDAS container: the dataset and its (recomputed)
meta data. -/
structure MiniDAS where
  dataset : NpMatrix
  meta : Meta
deriving DecidableEq

/-- Property `n_channels`: `self.dataset.shape[0]`. -/
def MiniDAS.n_channels (c : MiniDAS) : ℕ := c.dataset.shape0

/-- Property `n_samples`: `self.dataset.shape[1]`. -/
def MiniDAS.n_samples (c : MiniDAS) : ℕ := c.dataset.shape1

/-- Property `duration`: `self.n_samples * self.meta.delta_t` with
`delta_t = 1.0 / self.sampling_rate`. -/
def MiniDAS.duration (c : MiniDAS) : ℚ :=
  (c.n_samples : ℚ) * (1 / c.meta.sampling_rate)

/-- Python `int(q)`: truncation toward zero. -/
def pyTrunc (q : ℚ) : ℤ := if 0 ≤ q then ⌊q⌋ else -⌊-q⌋

/-- Embeds `miniDAS.__init__(dataset, meta)`: keeps the dataset and
overwrites `meta.end_time_ns = int(meta.start_time_ns + meta.delta_t *
1e9 * self.n_samples)`. -/
def mdInit (d : NpMatrix) (m : Meta) : MiniDAS :=
  { dataset := d
    meta :=
      { m with
        end_time_ns :=
          pyTrunc ((m.start_time_ns : ℚ) + 1 / m.sampling_rate * 1000000000 * d.shape1) } }

/-- Class attribute `miniDAS.version`. -/
def miniDASVersion : ℕ := 1

/-- A miniDAS HDF5 file: the `miniDAS` dataset with its attributes,
namely `version` plus the flat `asdict(meta)`. `from_numpy` persists
`asdict(meta)` before `__init__` recomputes `end_time_ns`, so the
persisted `meta.end_time_ns` is whatever the caller-supplied Meta held. -/
structure MDFile where
  version : ℕ
  data : NpMatrix
  meta : Meta
deriving DecidableEq

/-- Embeds `miniDAS.from_numpy(file, data, meta, compress, force)`.
The `compress` flag only selects lzf compression of the stored bytes
and does not change values, so it is not modelled. The checks run in
source order: destination existence (unless `force`), dtype allow-list
membership, then channel count against `data.shape[0]`; on success the
file is created and the container built through `__init__`. -/
def fromNumpy (fs : FileSys MDFile) (file : String) (data : NpMatrix)
    (meta : Meta) (force : Bool) :
    Except MDErr (MiniDAS × FileSys MDFile) :=
  if fsMember file fs = true ∧ force = false then
    Except.error MDErr.alreadyExists
  else if data.dtype ∉ allowedDtypes then
    Except.error MDErr.invalidDtype
  else if meta.latitudes.length ≠ data.shape0 then
    Except.error MDErr.shapeMismatch
  else
    Except.ok (mdInit data meta, fsWrite file ⟨miniDASVersion, data, meta⟩ fs)

/-- Embeds `miniDAS.is_valid(file)`: true exactly when the stored
version attribute equals the implementation version (otherwise the
method warns and returns false). -/
def isValidMD (f : MDFile) : Bool := f.version == miniDASVersion

/-- Embeds `miniDAS.open(file)`: when `is_valid` is false an
`AttributeError` (`is not a miniDAS file`) is raised; otherwise the
attributes minus `version` rebuild a `Meta` (rerunning
`__post_init__`) and `__init__` recomputes `end_time_ns`, ignoring the
persisted value. -/
def mdOpen (f : MDFile) : Except MDErr MiniDAS :=
  if isValidMD f = false then Except.error MDErr.attributeError
  else if f.meta.latitudes.length ≠ f.meta.longitudes.length ∧
      f.meta.longitudes.length ≠ f.meta.elevations.length then
    Except.error MDErr.attributeError
  else Except.ok (mdInit f.data f.meta)

/-- The attributes of a file as inspected by `readDAS` of
miniDAS/reader.py (`format` may be absent). -/
structure PyMiniFile where
  format : Option String
  version : String
  traces : NpMatrix
  meta : Option H5Node

/-- Failure kinds of `readDAS` of miniDAS/reader.py:
`notMiniDAS` for a missing or wrong `format` attribute, and
`nameErrorVersion` for the `NameError` on the undefined module-level
name `version`. -/
inductive PyRdErr where
  | notMiniDAS | nameErrorVersion
deriving DecidableEq

/-- Embeds `readDAS(fname)` of src/miniDAS/reader.py. It checks the
`format` attribute, then evaluates `das["version"] != version`; the
module-level name `version` is never defined in miniDAS/reader.py (nor
imported: the only import from the package is `ez_waterfall`), so this
comparison raises `NameError` on every call that reaches it, and the
`Unknown DAS file version number` branch as well as all later field
reads are unreachable. -/
def readerPyReadDAS (f : PyMiniFile) : Except PyRdErr Unit :=
  match f.format with
  | none => Except.error PyRdErr.notMiniDAS
  | some fmt =>
      if fmt ≠ "miniDAS" then Except.error PyRdErr.notMiniDAS
      else Except.error PyRdErr.nameErrorVersion

/-- Floor mod `np.mod(x, T)` on rationals. -/
def npMod (x T : ℚ) : ℚ := x - T * ⌊x / T⌋

/-- The jump estimate of `np.unwrap` for one consecutive difference,
conjugated to period `T`: `ddmod = mod(dd + T/2, T) - T/2`, with the
boundary fix that replaces `-T/2` by `T/2` when the difference is
positive. -/
def ddmod (T d : ℚ) : ℚ :=
  let m := npMod (d + T / 2) T - T / 2
  if m = -(T / 2) ∧ 0 < d then T / 2 else m

/-- The per-difference phase correction of `np.unwrap`: zero when the
difference stays below the discontinuity threshold `T/2`, otherwise
`ddmod - dd`. -/
def phCorrect (T d : ℚ) : ℚ := if |d| < T / 2 then 0 else ddmod T d - d

/-- The cumulative-correction pass of `np.unwrap` over the tail of a
line: `prev` is the previous original sample, `carry` the cumulative
sum of corrections so far (`ph_correct.cumsum`). -/
def unwrapAux (T : ℚ) : ℚ → ℚ → List ℚ → List ℚ
  | _, _, [] => []
  | prev, carry, x :: xs =>
      (x + (carry + phCorrect T (x - prev))) ::
        unwrapAux T x (carry + phCorrect T (x - prev)) xs

/-- `np.unwrap` along one line of samples: the first sample is kept,
later samples get the cumulative corrections added. -/
def unwrapLine (T : ℚ) : List ℚ → List ℚ
  | [] => []
  | x :: xs => x :: unwrapAux T x 0 xs

/-- Embeds `_unwrap(phi, wrapStep, axis)` of basicASNreader.py (both
copies are identical) in exact arithmetic: the source rescales by
`2π/wrapStep`, runs `np.unwrap` (period `2π`, default discontinuity
`π`) and rescales back; in exact arithmetic that conjugation equals
unwrapping with period `wrapStep` directly, and the final
`astype(phi.dtype)` cast is the identity. The matrix is the list of
its lines along the chosen axis. -/
def unwrapMat (wrapStep : ℚ) (phi : List (List ℚ)) : List (List ℚ) :=
  phi.map (unwrapLine wrapStep)

/-- A line has no jump: every consecutive difference (starting against
`prev`) stays within `T/2` in magnitude. -/
def smallDiffs (T : ℚ) : ℚ → List ℚ → Prop
  | _, [] => True
  | prev, x :: xs => |x - prev| ≤ T / 2 ∧ smallDiffs T x xs

/-- Whether an `Except` computation succeeded. -/
def exceptIsOk {ε α : Type} : Except ε α → Bool
  | Except.ok _ => true
  | Except.error _ => false

/-- The free-form metadata tree of `make_dummy_data()`: a scalar, a
numpy vector, a string and a nested dictionary. -/
def metaExample : PyVal :=
  PyVal.dict
    [("scalar", PyVal.scalar (314159265358979 / 100000000000000)),
     ("vector", PyVal.nparr [10, 11, 12, 13, 14, 15, 16, 17, 18, 19]),
     ("string", PyVal.text "This is a test"),
     ("dict", PyVal.dict [("val1", PyVal.scalar (123 / 100)), ("val2", PyVal.text "dummy")])]

/-- A small well-formed reference `das` dictionary used as concrete
input by witnesses. -/
def dasBase : RefDas :=
  { DASFileVersion := refVersion
    domain := "strainrate"
    t0 := 1664355600000000000
    fsamp := 1000
    gl := 51 / 5
    lats := [1, 2]
    longs := [3, 4]
    elev := [0, 0]
    traces := ⟨DType.float32, [[1 / 2, 1 / 3], [1 / 4, 1 / 5]]⟩
    meta := metaExample }

/-- First comparand for the trace-tolerance counterexample: one trace
of two samples. -/
def dasCmpA : RefDas := { dasBase with traces := ⟨DType.float32, [[0, 1]]⟩ }

/-- Second comparand: identical except the second sample differs by 1. -/
def dasCmpB : RefDas := { dasBase with traces := ⟨DType.float32, [[0, 2]]⟩ }

/-- 300 latitudes. -/
def lats300 : List ℚ := List.replicate 300 0

/-- 299 longitudes (and, for the counterexample, 299 elevations). -/
def longs299 : List ℚ := List.replicate 299 0

/-- A das dictionary with 300 latitudes but 299 longitudes/elevations. -/
def dasGeo : RefDas := { dasBase with lats := lats300, longs := longs299, elev := longs299 }

/-- A reference-format file whose version attribute is 2 instead of
0.92, otherwise well formed. -/
def refFileV2 : DASFile :=
  { traces := ⟨DType.float32, [[0]]⟩
    DASFileVersion := 2
    domain := "strainrate"
    t0 := 0
    fsamp := 1000
    gl := 51 / 5
    lats := [1]
    longs := [2]
    elev := [3]
    meta := some (H5Node.group []) }

/-- A file as seen by miniDAS/reader.py with a correct format marker
but a foreign version attribute. -/
def pyFileV2 : PyMiniFile :=
  { format := some "miniDAS"
    version := "2.0.0"
    traces := ⟨DType.float32, [[0]]⟩
    meta := some (H5Node.group []) }

/-- A small well-formed `Meta` used as concrete input by witnesses. -/
def metaBase : Meta :=
  { data_unit := "rad"
    start_time_ns := 0
    sampling_rate := 1000
    channel_spacing_m := 5
    gauge_length := 51 / 5
    strain_scale_factor := 1
    units_after_scaling := "ue/s"
    latitudes := [0]
    longitudes := [0]
    elevations := [0] }

/-- A miniDAS file whose version attribute is 2 instead of 1. -/
def mdFileV2 : MDFile := { version := 2, data := ⟨DType.int32, [[0]]⟩, meta := metaBase }

/-- A Meta with sampling rate 3 Hz, for the end-time rounding
counterexample. -/
def metaFs3 : Meta := { metaBase with sampling_rate := 3 }

/-- A persisted miniDAS file with version 1, two samples on one
channel, 10 ns start time, 2 Hz sampling and a nonzero persisted
end time, used by the end-time witness. -/
def mdFileW : MDFile :=
  { version := 1
    data := ⟨DType.int32, [[1, 2]]⟩
    meta := { metaBase with start_time_ns := 10, sampling_rate := 2, end_time_ns := 12345 } }

/-- Old content sitting at the destination in the overwrite
counterexample. -/
def dasOld : RefDas := { dasBase with t0 := 1 }

/-- New content written over it. -/
def dasNew : RefDas := { dasBase with t0 := 2 }

/-- A directory already holding the destination `out.das`. -/
def fs0 : FileSys DASFile := [("out.das", writeDASContent dasOld)]

/-- A das dictionary whose metadata contains a mixed-type Python list
under key `bad`, after a storable entry `ok`. -/
def dasBadMeta : RefDas :=
  { dasBase with
    meta := PyVal.dict
      [("ok", PyVal.scalar 1),
       ("bad", PyVal.pylist [PyVal.scalar 1, PyVal.text "a", PyVal.scalar 2])] }

/-- Concrete data matrix for the from_numpy witnesses: 2 channels, 3
samples. -/
def dataW : NpMatrix := ⟨DType.int16, [[1, 2, 3], [4, 5, 6]]⟩

/-- Meta matching `dataW`: two channels of geometry. -/
def metaW : Meta := { metaBase with latitudes := [0, 1], longitudes := [2, 3], elevations := [4, 5] }

/-- A directory already holding a miniDAS file at `b.h5`. -/
def fsMD : FileSys MDFile := [("b.h5", ⟨miniDASVersion, dataW, metaW⟩)]

mutual
/-- On a list-free metadata value the storing walker succeeds and the
reading walker inverts it. -/
theorem walk_read_val (key : String) (t : PyVal) (h : listFree t = true) :
    ∃ n, walkingDictStoring key t = (some n, none) ∧ readDictInH5 n = t := by
  cases t with
  | scalar q => exact ⟨_, rfl, rfl⟩
  | text s => exact ⟨_, rfl, rfl⟩
  | nparr l => exact ⟨_, rfl, rfl⟩
  | pylist l => simp [listFree] at h
  | dict es =>
      obtain ⟨ns, h1, h2⟩ := walk_read_entries key es (by simpa [listFree] using h)
      refine ⟨H5Node.group ns, ?_, ?_⟩
      · simp [walkingDictStoring, h1]
      · simp [readDictInH5, h2]

/-- Entrywise version of `walk_read_val`. -/
theorem walk_read_entries (key : String) (es : List (String × PyVal))
    (h : listFreeEntries es = true) :
    ∃ ns, walkEntries key es = (ns, none) ∧ readEntries ns = es := by
  cases es with
  | nil => exact ⟨[], rfl, rfl⟩
  | cons e rest =>
      obtain ⟨k, v⟩ := e
      rw [listFreeEntries, Bool.and_eq_true] at h
      obtain ⟨n, hn1, hn2⟩ := walk_read_val (key ++ "/" ++ k) v h.1
      obtain ⟨ns, hs1, hs2⟩ := walk_read_entries key rest h.2
      refine ⟨(k, n) :: ns, ?_, ?_⟩
      · simp [walkEntries, hn1, hs1]
      · simp [readEntries, hn2, hs2]
end

mutual
/-- On a value containing a Python list the storing walker raises, and
the key it reports is the full path of a list leaf actually present. -/
theorem walk_fails_val (key : String) (t : PyVal) (h : listFree t = false) :
    ∃ e, (walkingDictStoring key t).2 = some e ∧ e ∈ listLeafKeys key t := by
  cases t with
  | scalar q => simp [listFree] at h
  | text s => simp [listFree] at h
  | nparr l => simp [listFree] at h
  | pylist l => exact ⟨key, rfl, by simp [listLeafKeys]⟩
  | dict es =>
      obtain ⟨e, h1, h2⟩ := walk_fails_entries key es (by simpa [listFree] using h)
      exact ⟨e, by simpa [walkingDictStoring] using h1, by simpa [listLeafKeys] using h2⟩

/-- Entrywise version of `walk_fails_val`. -/
theorem walk_fails_entries (key : String) (es : List (String × PyVal))
    (h : listFreeEntries es = false) :
    ∃ e, (walkEntries key es).2 = some e ∧ e ∈ listLeafKeysEntries key es := by
  cases es with
  | nil => simp [listFreeEntries] at h
  | cons ent rest =>
      obtain ⟨k, v⟩ := ent
      rw [listFreeEntries, Bool.and_eq_false_iff] at h
      by_cases hv : listFree v = true
      · obtain ⟨n, hn1, hn2⟩ := walk_read_val (key ++ "/" ++ k) v hv
        have hrest : listFreeEntries rest = false := by
          rcases h with h | h
          · rw [hv] at h; cases h
          · exact h
        obtain ⟨e, h1, h2⟩ := walk_fails_entries key rest hrest
        refine ⟨e, ?_, ?_⟩
        · simp [walkEntries, hn1, h1]
        · simp [listLeafKeysEntries]
          exact Or.inr h2
      · have hv' : listFree v = false := by
          cases hfv : listFree v
          · rfl
          · exact absurd hfv hv
        obtain ⟨e, h1, h2⟩ := walk_fails_val (key ++ "/" ++ k) v hv'
        refine ⟨e, ?_, ?_⟩
        · rw [walkEntries]
          rcases hw : walkingDictStoring (key ++ "/" ++ k) v with ⟨n?, err?⟩
          rw [hw] at h1
          simp at h1
          cases n? with
          | none => simp [h1]
          | some n => simp [h1]
        · simp [listLeafKeysEntries]
          exact Or.inl h2
end

/-- The floor mod is nonnegative for a positive modulus. -/
theorem npMod_nonneg (x : ℚ) {T : ℚ} (hT : 0 < T) : 0 ≤ npMod x T := by
  unfold npMod
  rw [mul_comm]
  exact Int.sub_floor_div_mul_nonneg x hT

/-- The floor mod is below the (positive) modulus. -/
theorem npMod_lt (x : ℚ) {T : ℚ} (hT : 0 < T) : npMod x T < T := by
  unfold npMod
  rw [mul_comm]
  exact Int.sub_floor_div_mul_lt x hT

/-- A difference already within the discontinuity threshold gets no
correction, including the two boundary values `±T/2`. -/
theorem phCorrect_eq_zero {T d : ℚ} (hT : 0 < T) (hd : |d| ≤ T / 2) :
    phCorrect T d = 0 := by
  rcases lt_or_eq_of_le hd with h | h
  · simp [phCorrect, h]
  · have habs : |d| = T / 2 := h
    have h2 : d = T / 2 ∨ d = -(T / 2) := by
      rcases abs_cases d with ⟨he, _⟩ | ⟨he, _⟩
      · exact Or.inl (he ▸ habs)
      · exact Or.inr (by linarith [habs, he])
    have hnotlt : ¬ |d| < T / 2 := by rw [habs]; exact lt_irrefl _
    rcases h2 with rfl | rfl
    · have hm : npMod (T / 2 + T / 2) T = 0 := by
        have he : T / 2 + T / 2 = T := by ring
        rw [he]
        unfold npMod
        rw [div_self hT.ne']
        simp
      rw [phCorrect, if_neg hnotlt, ddmod]
      simp only [hm]
      rw [if_pos ⟨by ring, by positivity⟩]
      ring
    · have hm : npMod (-(T / 2) + T / 2) T = 0 := by
        have he : -(T / 2) + T / 2 = 0 := by ring
        rw [he]
        unfold npMod
        simp
      rw [phCorrect, if_neg hnotlt, ddmod]
      simp only [hm]
      rw [if_neg (by rintro ⟨-, hpos⟩; linarith)]
      ring

/-- After one correction the resulting consecutive difference is within
the threshold. -/
theorem abs_add_phCorrect_le {T : ℚ} (d : ℚ) (hT : 0 < T) :
    |d + phCorrect T d| ≤ T / 2 := by
  by_cases h : |d| < T / 2
  · simpa [phCorrect, h] using h.le
  · rw [phCorrect, if_neg h]
    have he : d + (ddmod T d - d) = ddmod T d := by ring
    rw [he, ddmod]
    have h0 : 0 ≤ npMod (d + T / 2) T := npMod_nonneg _ hT
    have h1 : npMod (d + T / 2) T < T := npMod_lt _ hT
    by_cases hc : npMod (d + T / 2) T - T / 2 = -(T / 2) ∧ 0 < d
    · rw [if_pos hc, abs_of_pos (by positivity)]
    · rw [if_neg hc]
      rw [abs_le]
      constructor
      · linarith
      · linarith

/-- A line whose consecutive differences are all within the threshold
is left untouched by the correction pass. -/
theorem unwrapAux_id {T : ℚ} (hT : 0 < T) :
    ∀ (xs : List ℚ) (prev : ℚ), smallDiffs T prev xs → unwrapAux T prev 0 xs = xs := by
  intro xs
  induction xs with
  | nil => intro prev _; rfl
  | cons x rest ih =>
      intro prev hsd
      obtain ⟨h1, h2⟩ := hsd
      rw [unwrapAux]
      rw [phCorrect_eq_zero hT h1]
      simpa using ih x h2

/-- The correction pass always outputs a line whose consecutive
differences (against `prev + carry`) are within the threshold. -/
theorem smallDiffs_unwrapAux {T : ℚ} (hT : 0 < T) :
    ∀ (xs : List ℚ) (prev carry : ℚ),
      smallDiffs T (prev + carry) (unwrapAux T prev carry xs) := by
  intro xs
  induction xs with
  | nil => intro prev carry; trivial
  | cons x rest ih =>
      intro prev carry
      rw [unwrapAux]
      refine ⟨?_, ?_⟩
      · have he : x + (carry + phCorrect T (x - prev)) - (prev + carry) =
            (x - prev) + phCorrect T (x - prev) := by ring
        rw [he]
        exact abs_add_phCorrect_le (x - prev) hT
      · have := ih x (carry + phCorrect T (x - prev))
        have he : x + (carry + phCorrect T (x - prev)) =
            x + (carry + phCorrect T (x - prev)) := rfl
        simpa [add_assoc] using this

/-- Applying the line unwrap twice gives the same result as once. -/
theorem unwrapLine_idem {T : ℚ} (hT : 0 < T) (p : List ℚ) :
    unwrapLine T (unwrapLine T p) = unwrapLine T p := by
  cases p with
  | nil => rfl
  | cons x xs =>
      rw [unwrapLine, unwrapLine]
      have hsd : smallDiffs T x (unwrapAux T x 0 xs) := by
        simpa using smallDiffs_unwrapAux hT xs x 0
      rw [unwrapAux_id hT _ x hsd]

/-- Elementwise absolute difference of a row with itself is zero. -/
theorem zipWith_abs_sub_self (r : List ℚ) :
    ∀ x ∈ List.zipWith (fun x y => |x - y|) r r, x = 0 := by
  induction r with
  | nil => simp
  | cons y ys ih =>
      intro x hx
      rw [List.zipWith_cons_cons] at hx
      rcases List.mem_cons.mp hx with h | h
      · rw [h]; simp
      · exact ih x h

/-- All flattened absolute differences of a matrix with itself are
zero. -/
theorem mem_absDiffs_self (a : List (List ℚ)) : ∀ x ∈ absDiffs a a, x = 0 := by
  induction a with
  | nil => simp [absDiffs]
  | cons r rs ih =>
      intro x hx
      rw [absDiffs, List.zipWith_cons_cons, List.flatten_cons] at hx
      rcases List.mem_append.mp hx with h | h
      · exact zipWith_abs_sub_self r x h
      · exact ih x (by rw [absDiffs]; exact h)

/-- Folding `min` from zero over zeros gives zero. -/
theorem foldl_min_zeros : ∀ xs : List ℚ, (∀ x ∈ xs, x = 0) → xs.foldl min 0 = 0 := by
  intro xs
  induction xs with
  | nil => intro _; rfl
  | cons y ys ih =>
      intro h
      rw [List.foldl_cons, h y (by simp), min_self]
      exact ih fun x hx => h x (by simp [hx])

/-- The minimum absolute difference of a matrix with itself is zero. -/
theorem listMinD_absDiffs_self (a : List (List ℚ)) : listMinD (absDiffs a a) = 0 := by
  have hmem := mem_absDiffs_self a
  cases h : absDiffs a a with
  | nil => rfl
  | cons y ys =>
      rw [listMinD, hmem y (by rw [h]; simp)]
      exact foldl_min_zeros ys fun x hx => hmem x (by rw [h]; simp [hx])

/-- C1: for every das dictionary built from a valid schema (its version
the module constant), a matrix with at least one sample (np.min is
undefined on an empty array) and a list-free metadata tree, `writeDAS`
raises nothing and `readDAS` of the written destination yields a
dictionary that `compareDASdicts` (whose trace tolerance is fixed at
zero) reports equal to the original, with no mismatch description. -/
theorem das_write_read_compare (das : RefDas)
    (hv : das.DASFileVersion = refVersion)
    (hm : listFree das.meta = true)
    (_ht : das.traces.vals.flatten ≠ []) :
    writeDASResult das = none ∧
    ∃ das2, readDAS (writeDASContent das) = Except.ok das2 ∧
      compareDASdicts das das2 = (true, []) := by
  obtain ⟨n, hwn, hrn⟩ := walk_read_val "meta" das.meta hm
  constructor
  · rw [writeDASResult, hwn]
  · refine ⟨⟨refVersion, das.domain, das.t0, das.fsamp, das.gl, das.lats,
      das.longs, das.elev, das.traces, readDictInH5 n⟩, ?_, ?_⟩
    · simp [readDAS, writeDASContent, hwn]
    · simp [compareDASdicts, hv, listMinD_absDiffs_self]

/-- Witness for C1 at a concrete das dictionary. -/
theorem das_write_read_compare_witness :
    dasBase.DASFileVersion = refVersion ∧ listFree dasBase.meta = true ∧
    dasBase.traces.vals.flatten ≠ [] ∧
    (writeDASResult dasBase = none ∧
      ∃ das2, readDAS (writeDASContent dasBase) = Except.ok das2 ∧
        compareDASdicts dasBase das2 = (true, [])) :=
  ⟨rfl, rfl, by decide, das_write_read_compare dasBase rfl rfl (by decide)⟩

/-- C2: for every metadata tree whose values are only scalars, strings,
numeric sequences or nested mappings (no Python lists), storing the
tree with the writer walker and decoding the stored hierarchy with the
reader walker reconstructs the original tree. -/
theorem meta_encode_decode (k : String) (t : PyVal) (h : listFree t = true) :
    ∃ n, walkingDictStoring k t = (some n, none) ∧ readDictInH5 n = t :=
  walk_read_val k t h

/-- Witness for C2 on the dummy-data metadata tree. -/
theorem meta_encode_decode_witness :
    listFree metaExample = true ∧
    ∃ n, walkingDictStoring "meta" metaExample = (some n, none) ∧
      readDictInH5 n = metaExample :=
  ⟨rfl, meta_encode_decode "meta" metaExample rfl⟩

/-- C9: for every phase matrix and every positive wrap step, applying
the unwrap of basicASNreader.py twice along the same axis yields the
same result as applying it once. -/
theorem unwrap_idempotent (phi : List (List ℚ)) (w : ℚ) (hw : 0 < w) :
    unwrapMat w (unwrapMat w phi) = unwrapMat w phi := by
  unfold unwrapMat
  rw [List.map_map]
  refine List.map_congr_left ?_
  intro a _
  exact unwrapLine_idem hw a

/-- Witness for C9 on a line with a genuine jump (wrap step 2). -/
theorem unwrap_idempotent_witness :
    (0 : ℚ) < 2 ∧
    unwrapMat 2 (unwrapMat 2 [[0, 3]]) = unwrapMat 2 [[0, 3]] :=
  ⟨by norm_num, unwrap_idempotent [[0, 3]] 2 (by norm_num)⟩

/-- C5: evaluation at the failing input. The two dictionaries agree
except that one sample of the single trace differs by 1, so the
maximum absolute difference exceeds the zero tolerance; the comparator
nevertheless reports them equal with no mismatch message, because its
trace check tests `np.min(abs(das1[traces] - das2[traces])) > 0`
instead of the maximum. -/
theorem compare_min_not_max_eval :
    compareDASdicts dasCmpA dasCmpB = (true, []) ∧
    listMinD (absDiffs dasCmpA.traces.vals dasCmpB.traces.vals) = 0 ∧
    listMaxD (absDiffs dasCmpA.traces.vals dasCmpB.traces.vals) = 1 := by
  have habs : absDiffs dasCmpA.traces.vals dasCmpB.traces.vals = [0, 1] := by
    show absDiffs [[0, 1]] [[0, 2]] = [0, 1]
    norm_num [absDiffs]
  have hmin : listMinD (absDiffs dasCmpA.traces.vals dasCmpB.traces.vals) = 0 := by
    rw [habs]
    norm_num [listMinD]
  have hmax : listMaxD (absDiffs dasCmpA.traces.vals dasCmpB.traces.vals) = 1 := by
    rw [habs]
    norm_num [listMaxD]
  refine ⟨?_, hmin, hmax⟩
  unfold compareDASdicts
  rw [hmin]
  simp [dasCmpA, dasCmpB]

/-- C6: evaluation at the failing input. With 300 latitudes, 299
longitudes and 299 elevations the `Meta` constructor succeeds (its
`__post_init__` guard is the Python chained comparison `lat.size !=
lon.size != elev.size`, which is false because the longitude and
elevation sizes agree), although the latitude and longitude lengths
differ; the reference validator `checkDASFileFormat` does flag the
same geometry on the same input. -/
theorem meta_geometry_gate_eval :
    exceptIsOk
      (mkMeta "rad" 0 1000 5 (51 / 5) 1 "ue/s" lats300 longs299 longs299) = true ∧
    lats300.length ≠ longs299.length ∧
    (checkDASFileFormat dasGeo).1 = false ∧
    ChkMsg.latsLongs ∈ (checkDASFileFormat dasGeo).2 := by
  have hlen : lats300.length ≠ longs299.length := by
    rw [lats300, longs299, List.length_replicate, List.length_replicate]
    omega
  have hlen1 : dasGeo.lats.length ≠ dasGeo.longs.length := hlen
  have hlen2 : dasGeo.lats.length ≠ dasGeo.elev.length := hlen
  have hchk : checkDASFileFormat dasGeo = (false, [ChkMsg.latsLongs, ChkMsg.latsElev]) := by
    unfold checkDASFileFormat
    rw [if_neg (fun h => h rfl), if_pos hlen1, if_pos hlen2,
      if_neg (fun h => h rfl), if_neg (fun h => h (by decide))]
    rfl
  refine ⟨?_, hlen, ?_, ?_⟩
  · rw [mkMeta, if_neg]
    · rfl
    · rintro ⟨-, h⟩
      exact h rfl
  · rw [hchk]
  · rw [hchk]
    simp

/-- C4: evaluation at a failing input (an otherwise well-formed store
whose version attribute is foreign). The reference `readDAS` stops
with its unsupported-version failure (`print` + `exit()`) before
reading any further field, and `miniDAS.is_valid`/`open` reject the
file; but `readDAS` of miniDAS/reader.py fails with a `NameError` (the
module never defines the `version` constant it compares against), so
its `Unknown DAS file version number` error is unreachable. -/
theorem version_gate_eval :
    readDAS refFileV2 = Except.error RefReadErr.unsupportedVersion ∧
    isValidMD mdFileV2 = false ∧
    mdOpen mdFileV2 = Except.error MDErr.attributeError ∧
    readerPyReadDAS pyFileV2 = Except.error PyRdErr.nameErrorVersion := by
  refine ⟨?_, by decide, ?_, ?_⟩
  · rw [readDAS, if_pos (by norm_num [refFileV2, refVersion])]
  · rw [mdOpen, if_pos (by decide)]
  · rw [readerPyReadDAS]
    simp [pyFileV2]

/-- C3 counterexample: with start time 0, sampling rate 3 Hz and 2
samples, the recomputed end time is the truncation 666666666 of
2e9/3, not the claimed rounding 666666667. -/
theorem end_time_truncates_not_rounds :
    (mdInit ⟨DType.float32, [[0, 0]]⟩ metaFs3).meta.end_time_ns = 666666666 ∧
    metaFs3.start_time_ns +
      round (((2 : ℚ)) * (1 / metaFs3.sampling_rate) * 1000000000) = 666666667 ∧
    (mdInit ⟨DType.float32, [[0, 0]]⟩ metaFs3).meta.end_time_ns ≠
      metaFs3.start_time_ns +
        round (((2 : ℚ)) * (1 / metaFs3.sampling_rate) * 1000000000) := by
  have h1 : (mdInit ⟨DType.float32, [[0, 0]]⟩ metaFs3).meta.end_time_ns = 666666666 := by
    simp only [mdInit, metaFs3, metaBase, NpMatrix.shape1]
    norm_num [pyTrunc, Int.floor_eq_iff]
  have h2 : metaFs3.start_time_ns +
      round (((2 : ℚ)) * (1 / metaFs3.sampling_rate) * 1000000000) = 666666667 := by
    simp only [metaFs3, metaBase]
    norm_num [round_eq, Int.floor_eq_iff]
  refine ⟨h1, h2, ?_⟩
  rw [h1, h2]
  decide

/-- C3 amended: for every persisted miniDAS file with the supported
version, consistent geometry sizes, nonnegative start time and
positive sampling rate, `open` succeeds and recomputes `end_time_ns`
as `start_time_ns + floor(n_samples * delta_t * 1e9)` (the Python
`int(...)` truncation, not a rounding) from the stored start time,
sampling rate and sample count, ignoring the persisted end time; hence
`end_time_ns >= start_time_ns`. -/
theorem end_time_recomputed_on_open (f : MDFile)
    (hv : f.version = miniDASVersion)
    (hgeo : ¬(f.meta.latitudes.length ≠ f.meta.longitudes.length ∧
      f.meta.longitudes.length ≠ f.meta.elevations.length))
    (hs : 0 ≤ f.meta.start_time_ns)
    (hf : 0 < f.meta.sampling_rate) :
    ∃ c, mdOpen f = Except.ok c ∧
      c.meta.end_time_ns = f.meta.start_time_ns +
        ⌊(f.data.shape1 : ℚ) * (1 / f.meta.sampling_rate) * 1000000000⌋ ∧
      f.meta.start_time_ns ≤ c.meta.end_time_ns ∧
      ∀ e : ℤ, mdOpen { f with meta := { f.meta with end_time_ns := e } } = mdOpen f := by
  have hvalid : isValidMD f = true := by rw [isValidMD, hv]; rfl
  have hopen : mdOpen f = Except.ok (mdInit f.data f.meta) := by
    rw [mdOpen, hvalid, if_neg (by simp), if_neg hgeo]
  refine ⟨mdInit f.data f.meta, hopen, ?_, ?_, ?_⟩
  · show pyTrunc ((f.meta.start_time_ns : ℚ) +
      1 / f.meta.sampling_rate * 1000000000 * f.data.shape1) = _
    have hx : (0 : ℚ) ≤ 1 / f.meta.sampling_rate * 1000000000 * f.data.shape1 := by
      positivity
    have hq : (0 : ℚ) ≤ (f.meta.start_time_ns : ℚ) +
        1 / f.meta.sampling_rate * 1000000000 * f.data.shape1 := by
      have : (0 : ℚ) ≤ (f.meta.start_time_ns : ℚ) := by exact_mod_cast hs
      linarith
    rw [pyTrunc, if_pos hq, Int.floor_int_add]
    congr 1
    congr 1
    ring
  · show f.meta.start_time_ns ≤ pyTrunc ((f.meta.start_time_ns : ℚ) +
      1 / f.meta.sampling_rate * 1000000000 * f.data.shape1)
    have hx : (0 : ℚ) ≤ 1 / f.meta.sampling_rate * 1000000000 * f.data.shape1 := by
      positivity
    have hq : (0 : ℚ) ≤ (f.meta.start_time_ns : ℚ) +
        1 / f.meta.sampling_rate * 1000000000 * f.data.shape1 := by
      have : (0 : ℚ) ≤ (f.meta.start_time_ns : ℚ) := by exact_mod_cast hs
      linarith
    rw [pyTrunc, if_pos hq, Int.floor_int_add]
    have : 0 ≤ ⌊1 / f.meta.sampling_rate * 1000000000 * (f.data.shape1 : ℚ)⌋ :=
      Int.floor_nonneg.mpr hx
    omega
  · intro e
    rw [hopen, mdOpen]
    rw [if_neg (by simp [isValidMD, hv]), if_neg (by simpa using hgeo)]
    rfl

/-- Witness for the amended C3 at a concrete file whose persisted end
time (12345) differs from the recomputed one. -/
theorem end_time_recomputed_on_open_witness :
    mdFileW.version = miniDASVersion ∧
    ¬(mdFileW.meta.latitudes.length ≠ mdFileW.meta.longitudes.length ∧
      mdFileW.meta.longitudes.length ≠ mdFileW.meta.elevations.length) ∧
    (0 : ℤ) ≤ mdFileW.meta.start_time_ns ∧
    (0 : ℚ) < mdFileW.meta.sampling_rate ∧
    (∃ c, mdOpen mdFileW = Except.ok c ∧
      c.meta.end_time_ns = mdFileW.meta.start_time_ns +
        ⌊(mdFileW.data.shape1 : ℚ) * (1 / mdFileW.meta.sampling_rate) * 1000000000⌋ ∧
      mdFileW.meta.start_time_ns ≤ c.meta.end_time_ns ∧
      ∀ e : ℤ, mdOpen { mdFileW with meta := { mdFileW.meta with end_time_ns := e } } =
        mdOpen mdFileW) :=
  ⟨rfl, by decide, by decide, by decide,
    end_time_recomputed_on_open mdFileW rfl (by decide) (by decide) (by decide)⟩

/-- C10: under the earlier `from_numpy` guards (destination free or
forced, dtype allowed), a data matrix whose first-axis length differs
from the latitude count is rejected with the channel-mismatch error;
and every container built by `from_numpy` has `n_channels = shape[0]`,
`n_samples = shape[1]` and `duration = shape[1] / sampling_rate`, so
the channel axis is the first dataset dimension and time the second. -/
theorem from_numpy_axes (fs : FileSys MDFile) (file : String) (data : NpMatrix)
    (meta : Meta) (force : Bool)
    (hguard : ¬(fsMember file fs = true ∧ force = false))
    (hdt : data.dtype ∈ allowedDtypes) :
    (meta.latitudes.length ≠ data.shape0 →
      fromNumpy fs file data meta force = Except.error MDErr.shapeMismatch) ∧
    (∀ c rest, fromNumpy fs file data meta force = Except.ok (c, rest) →
      c.n_channels = data.vals.length ∧
      c.n_samples = (data.vals.headD []).length ∧
      c.duration = (c.n_samples : ℚ) / c.meta.sampling_rate) := by
  constructor
  · intro hne
    rw [fromNumpy, if_neg hguard, if_neg (not_not_intro hdt), if_pos hne]
  · intro c rest hok
    rw [fromNumpy, if_neg hguard, if_neg (not_not_intro hdt)] at hok
    by_cases hne : meta.latitudes.length ≠ data.shape0
    · rw [if_pos hne] at hok
      cases hok
    · rw [if_neg hne] at hok
      injection hok with h
      injection h with h1 h2
      subst h1
      refine ⟨rfl, rfl, ?_⟩
      rw [MiniDAS.duration, mul_one_div]

/-- Witness for C10 at a concrete matrix of 2 channels and 3 samples. -/
theorem from_numpy_axes_witness :
    ¬(fsMember "a.h5" ([] : FileSys MDFile) = true ∧ false = false) ∧
    dataW.dtype ∈ allowedDtypes ∧
    ((metaW.latitudes.length ≠ dataW.shape0 →
      fromNumpy [] "a.h5" dataW metaW false = Except.error MDErr.shapeMismatch) ∧
    (∀ c rest, fromNumpy [] "a.h5" dataW metaW false = Except.ok (c, rest) →
      c.n_channels = dataW.vals.length ∧
      c.n_samples = (dataW.vals.headD []).length ∧
      c.duration = (c.n_samples : ℚ) / c.meta.sampling_rate)) :=
  ⟨by decide, by decide, from_numpy_axes [] "a.h5" dataW metaW false (by decide) (by decide)⟩

/-- C7 counterexample evaluation: the destination `out.das` already
exists and the reference `writeDAS` (which has no overwrite flag)
nevertheless succeeds and replaces the stored content, instead of
failing with an already-exists error. -/
theorem write_overwrites_existing_eval :
    fsMember "out.das" fs0 = true ∧
    (writeDAS fs0 "out.das" dasNew).1 = Except.ok () ∧
    fsLookup "out.das" (writeDAS fs0 "out.das" dasNew).2 = some (writeDASContent dasNew) ∧
    (writeDASContent dasNew).t0 ≠ (writeDASContent dasOld).t0 :=
  ⟨rfl, rfl, rfl, by decide⟩

/-- C7 amended: `miniDAS.from_numpy` fails with the already-exists
OSError when the destination exists and `force` is false (no write
happens), and with `force = true` (and passing dtype and geometry
checks) it succeeds, after which the destination holds exactly the
newly written file; the reference `writeDAS`, by contrast, has no
overwrite flag and unconditionally replaces an existing destination. -/
theorem from_numpy_overwrite_guard (fs : FileSys MDFile) (file : String)
    (data : NpMatrix) (meta : Meta)
    (hex : fsMember file fs = true) :
    fromNumpy fs file data meta false = Except.error MDErr.alreadyExists ∧
    (data.dtype ∈ allowedDtypes → meta.latitudes.length = data.shape0 →
      fromNumpy fs file data meta true =
        Except.ok (mdInit data meta, fsWrite file ⟨miniDASVersion, data, meta⟩ fs) ∧
      fsLookup file (fsWrite file ⟨miniDASVersion, data, meta⟩ fs) =
        some ⟨miniDASVersion, data, meta⟩) := by
  constructor
  · rw [fromNumpy, if_pos ⟨hex, rfl⟩]
  · intro hdt hshape
    constructor
    · rw [fromNumpy, if_neg (by simp), if_neg (not_not_intro hdt),
        if_neg (not_not_intro hshape)]
    · simp [fsWrite, fsLookup]

/-- Witness for the amended C7 at a directory already holding `b.h5`. -/
theorem from_numpy_overwrite_guard_witness :
    fsMember "b.h5" fsMD = true ∧
    (fromNumpy fsMD "b.h5" dataW metaW false = Except.error MDErr.alreadyExists ∧
    (dataW.dtype ∈ allowedDtypes → metaW.latitudes.length = dataW.shape0 →
      fromNumpy fsMD "b.h5" dataW metaW true =
        Except.ok (mdInit dataW metaW, fsWrite "b.h5" ⟨miniDASVersion, dataW, metaW⟩ fsMD) ∧
      fsLookup "b.h5" (fsWrite "b.h5" ⟨miniDASVersion, dataW, metaW⟩ fsMD) =
        some ⟨miniDASVersion, dataW, metaW⟩)) :=
  ⟨by decide, from_numpy_overwrite_guard fsMD "b.h5" dataW metaW (by decide)⟩

/-- C8 counterexample evaluation: writing a das dictionary whose
metadata holds a mixed-type Python list under `meta/bad` raises the
TypeError naming that path, yet the destination does receive output: a
file holding the traces, the attributes and the partially stored
metadata (the `ok` entry without the `bad` one). -/
theorem write_partial_output_eval :
    (writeDAS [] "f.das" dasBadMeta).1 = Except.error "meta/bad" ∧
    fsLookup "f.das" (writeDAS [] "f.das" dasBadMeta).2 = some (writeDASContent dasBadMeta) ∧
    (writeDASContent dasBadMeta).meta =
      some (H5Node.group [("ok", H5Node.dataset (LeafVal.scalar 1))]) :=
  ⟨rfl, rfl, rfl⟩

/-- C8 amended: for every das dictionary whose metadata contains a
Python list at any depth, `writeDAS` raises a TypeError to the caller
whose payload is the full path of an offending list leaf, and the
partially written file remains at the destination (traces, attributes
and the metadata entries stored before the error). -/
theorem write_meta_list_raises (fs : FileSys DASFile) (fname : String) (das : RefDas)
    (h : listFree das.meta = false) :
    ∃ e, (writeDAS fs fname das).1 = Except.error e ∧
      e ∈ listLeafKeys "meta" das.meta ∧
      fsLookup fname (writeDAS fs fname das).2 = some (writeDASContent das) := by
  obtain ⟨e, h1, h2⟩ := walk_fails_val "meta" das.meta h
  have hres : writeDASResult das = some e := h1
  refine ⟨e, ?_, h2, ?_⟩
  · simp [writeDAS, hres]
  · simp [writeDAS, hres, fsWrite, fsLookup]

/-- Witness for the amended C8 at the concrete bad-metadata input. -/
theorem write_meta_list_raises_witness :
    listFree dasBadMeta.meta = false ∧
    ∃ e, (writeDAS [] "g.das" dasBadMeta).1 = Except.error e ∧
      e ∈ listLeafKeys "meta" dasBadMeta.meta ∧
      fsLookup "g.das" (writeDAS [] "g.das" dasBadMeta).2 = some (writeDASContent dasBadMeta) :=
  ⟨rfl, write_meta_list_raises [] "g.das" dasBadMeta rfl⟩

end DASRCN
